import Mathlib

/-!
# Psankho — verification of the GitHub OAuth flow and issue-discovery client

A shallow embedding of the Psankho repository: the Express auth server
(`server.js`, staged as `src/unnamed/part_000`), the `useGitHubAuth` React
hook (two versions: `src/src/hooks/useGitHubAuth.js` and
`src/unnamed/part_001`), and the data-fetching parts of `src/src/App.jsx`.

JavaScript values flowing through the code are modelled by a small JSON
type; every `fetch` to an upstream service is an oracle input
(`FetchOutcome`) giving that call's outcome, and each handler returns,
besides its HTTP response or state update, how many upstream calls it made.
Express handlers become pure functions of the environment, the request and
the upstream oracle; React `useState` state becomes an explicit record
threaded through the hook's operations.
-/

namespace Psankho

/-! ## JSON values and JavaScript value helpers -/

/-- A JSON value, standing in for the JavaScript values the code passes
around. `Option Json` models a possibly-`undefined` value (`none` =
JavaScript `undefined`, which is distinct from `Json.null`). -/
inductive Json where
  | null
  | bool (b : Bool)
  | num (n : Int)
  | str (s : String)
  | arr (elems : List Json)
  | obj (fields : List (String × Json))
deriving Repr

/-- Property access `j.k`: a lookup in an object, `undefined` (= `none`)
on a missing key or a non-object. -/
def Json.get (j : Json) (k : String) : Option Json :=
  match j with
  | .obj fields => fields.lookup k
  | _ => none

/-- JavaScript truthiness of a defined value: `null`, `false`, `0` and `""`
are falsy; every object and array is truthy. -/
def Json.truthy : Json → Bool
  | .null => false
  | .bool b => b
  | .num n => n != 0
  | .str s => s != ""
  | .arr _ => true
  | .obj _ => true

/-- Truthiness of a possibly-`undefined` value (`undefined` is falsy). -/
def truthyOpt : Option Json → Bool
  | none => false
  | some j => j.truthy

/-- Truthiness of a string-or-`undefined` value (an environment variable,
a header, a query parameter): `undefined` and `""` are falsy. -/
def optStrTruthy : Option String → Bool
  | none => false
  | some s => s != ""

/-- JavaScript `a || b` for a possibly-`undefined` `a`: `a` when truthy,
else `b`. -/
def jsOr (a : Option Json) (b : Json) : Json :=
  match a with
  | some j => if j.truthy then j else b
  | none => b

/-- An object literal whose field values may be `undefined`, as
`res.json`/`JSON.stringify` serialise it: fields holding `undefined` are
dropped, fields holding `null` are kept. -/
def mkObjDropUndef (fields : List (String × Option Json)) : Json :=
  .obj (fields.filterMap fun p => p.2.map fun v => (p.1, v))

/-- Lookup in a field list with possibly-`undefined` values, skipping the
`undefined` entries — the access behaviour of `mkObjDropUndef`. -/
def lookupDrop : List (String × Option Json) → String → Option Json
  | [], _ => none
  | (_, none) :: rest, k => lookupDrop rest k
  | (s, some v) :: rest, k => if k == s then some v else lookupDrop rest k

/-- JavaScript `String(v)` coercion, used where the code writes a value
into `localStorage` or an `Error` message. Array elements that are `null`
or `undefined` render as in `toString` of the element itself here — a
harmless approximation (JavaScript renders them as the empty string); no
claim below depends on coerced text. -/
def jsToString : Json → String
  | .null => "null"
  | .bool true => "true"
  | .bool false => "false"
  | .num n => toString n
  | .str s => s
  | .arr es => String.intercalate "," (es.attach.map fun e => jsToString e.1)
  | .obj _ => "[object Object]"
decreasing_by
  have := List.sizeOf_lt_of_mem e.2
  simp only [Json.arr.sizeOf_spec]
  omega

/-- `String(v)` of a possibly-`undefined` value. -/
def jsToStringOpt : Option Json → String
  | none => "undefined"
  | some j => jsToString j

/-- `JSON.stringify` (string escaping inside `Json.str` is not modelled;
no claim below reads serialised text back). -/
def stringifyJson : Json → String
  | .null => "null"
  | .bool true => "true"
  | .bool false => "false"
  | .num n => toString n
  | .str s => "\"" ++ s ++ "\""
  | .arr es => "[" ++ String.intercalate "," (es.attach.map fun e => stringifyJson e.1) ++ "]"
  | .obj fs => "\x7b" ++ String.intercalate ","
      (fs.attach.map fun p => "\"" ++ p.1.1 ++ "\":" ++ stringifyJson p.1.2) ++ "\x7d"
decreasing_by
  · have := List.sizeOf_lt_of_mem e.2
    simp only [Json.arr.sizeOf_spec]
    omega
  · obtain ⟨⟨a, b⟩, hm⟩ := p
    have := List.sizeOf_lt_of_mem hm
    simp only [Json.obj.sizeOf_spec, Prod.mk.sizeOf_spec] at this ⊢
    omega

/-- What `localStorage.setItem(key, JSON.stringify(v))` stores when `v` may
be `undefined`: `JSON.stringify(undefined)` is `undefined`, which `setItem`
coerces to the string `"undefined"`. -/
def stringifyForStore : Option Json → String
  | none => "undefined"
  | some j => stringifyJson j

/-! ## Upstream calls as oracles -/

/-- The outcome of one `fetch` to an upstream service, supplied as an
oracle input: either the promise rejects (a network error with the
`err.message` the runtime would produce), or an HTTP response arrives with
a status and the outcome of parsing its body with `response.json()`
(`Except.error` = the parse throws). -/
inductive FetchOutcome where
  | netFail (msg : String)
  | resp (status : Nat) (body : Except String Json)
deriving Repr

/-- `response.ok`: status in the range 200–299. -/
def respOk (status : Nat) : Bool :=
  200 ≤ status && status < 300

/-! ## percent-encoding (`encodeURIComponent`) -/

/-- Upper-case hexadecimal digit. -/
def hexDigitChar (n : Nat) : Char :=
  if n < 10 then Char.ofNat (48 + n) else Char.ofNat (55 + n)

/-- The UTF-8 bytes of a character, written out explicitly so the
definition is transparent. -/
def utf8Bytes (c : Char) : List Nat :=
  let n := c.toNat
  if n < 0x80 then [n]
  else if n < 0x800 then [0xC0 + n / 0x40, 0x80 + n % 0x40]
  else if n < 0x10000 then [0xE0 + n / 0x1000, 0x80 + n / 0x40 % 0x40, 0x80 + n % 0x40]
  else [0xF0 + n / 0x40000, 0x80 + n / 0x1000 % 0x40, 0x80 + n / 0x40 % 0x40, 0x80 + n % 0x40]

/-- The characters `encodeURIComponent` leaves unescaped:
`A–Z a–z 0–9 - _ . ! ~ * ' ( )`. -/
def isUnreservedURI (c : Char) : Bool :=
  c.isAlphanum || c == '-' || c == '_' || c == '.' || c == '!' || c == '~'
    || c == '*' || c == Char.ofNat 39 || c == '(' || c == ')'

/-- Percent-encoding of one byte. -/
def encodeByte (b : Nat) : String :=
  String.mk ['%', hexDigitChar (b / 16 % 16), hexDigitChar (b % 16)]

/-- `encodeURIComponent` of one character. -/
def encodeChar (c : Char) : String :=
  if isUnreservedURI c then String.singleton c
  else String.join ((utf8Bytes c).map encodeByte)

/-- JavaScript `encodeURIComponent`. -/
def encodeURIComponent (s : String) : String :=
  String.join (s.data.map encodeChar)

/-! ## The auth server (`src/unnamed/part_000`)

The Express app registers no mutable server-side state: each handler reads
only `process.env` (modelled as `Env`), the request, and its upstream
`fetch` outcomes, so every handler is a pure function of those inputs.
`console.log` calls are pure output and are not modelled. Each handler
returns its HTTP response together with the number of upstream calls it
issued. -/

/-- The environment variables the handlers read (`process.env` values are
strings or `undefined`). -/
structure Env where
  clientId : Option String
  clientSecret : Option String
deriving Repr

/-- An HTTP response the server sends: `res.status(s).json(body)`, with
`res.json(body)` defaulting to status 200. -/
structure HttpResponse where
  status : Nat
  body : Json
deriving Repr

/-- The GitHub authorize URL as `GET /auth/github` builds it before the
optional `redirect_uri` is appended (part_000 line 64). -/
def baseAuthUrl (clientId : String) : String :=
  "https://github.com/login/oauth/authorize?client_id=" ++ clientId ++ "&scope=read:user"

/-- The authorize URL with the `redirect_uri` appended (part_000
lines 64–69). -/
def serverAuthUrl (clientId : String) (redirectUri : String) : String :=
  baseAuthUrl clientId ++ "&redirect_uri=" ++ encodeURIComponent redirectUri

/-- `GET /auth/github` (part_000 lines 49–72): 500 when
`GITHUB_CLIENT_ID` is unset, else 200 with the authorize URL. Makes no
upstream call — the second component counts the handler's upstream
`fetch` calls, and no `fetch` appears in its body. -/
def authGithubHandler (env : Env) (redirectUri : Option String) : HttpResponse × Nat :=
  match env.clientId with
  | none =>
      (⟨500, .obj [("error", .str "Server configuration error: GITHUB_CLIENT_ID not set")]⟩, 0)
  | some cid =>
      if cid = "" then
        (⟨500, .obj [("error", .str "Server configuration error: GITHUB_CLIENT_ID not set")]⟩, 0)
      else
        let url := match redirectUri with
          | some uri => if uri != "" then serverAuthUrl cid uri else baseAuthUrl cid
          | none => baseAuthUrl cid
        (⟨200, .obj [("url", .str url)]⟩, 0)

/-- How many times `POST /auth/github/callback` contacted each of its two
upstream endpoints (the token exchange at
`https://github.com/login/oauth/access_token` and the user-info fetch at
`https://api.github.com/user`). -/
structure CallbackCalls where
  tokenCalls : Nat
  userCalls : Nat
deriving Repr, DecidableEq

/-- The upstream world one request sees: the outcome each upstream
endpoint would give if contacted during this request. -/
structure UpstreamWorld where
  tokenExchange : FetchOutcome
  userInfo : FetchOutcome
deriving Repr

/-- The `error` value of the 400 response to a failed exchange
(part_000 line 116): `tokenData.error_description || 'Failed to exchange
code for token'`. -/
def exchangeErrorValue (tokenData : Json) : Json :=
  jsOr (tokenData.get "error_description") (.str "Failed to exchange code for token")

/-- The 500 response of the handler's single `catch` block (part_000
lines 143–146). -/
def callbackCatchResponse : HttpResponse :=
  ⟨500, .obj [("error", .str "Failed to authenticate with GitHub")]⟩

/-- `POST /auth/github/callback` (part_000 lines 80–147). Checks `code`
and the credentials, then inside one `try` block exchanges the code for a
token and — when the token response parses and carries no truthy `error`
field — fetches the user info, answering 200 with a reassembled body of
token fields plus a filtered `user` object. Any exception from either
upstream call lands in the one shared `catch`, a 500. -/
def callbackHandler (env : Env) (body : Json) (up : UpstreamWorld) :
    HttpResponse × CallbackCalls :=
  if !truthyOpt (body.get "code") then
    (⟨400, .obj [("error", .str "Authorization code is required")]⟩, ⟨0, 0⟩)
  else if !optStrTruthy env.clientId || !optStrTruthy env.clientSecret then
    (⟨500, .obj [("error", .str "Server configuration error: GitHub credentials not set")]⟩, ⟨0, 0⟩)
  else
    match up.tokenExchange with
    | .netFail _ => (callbackCatchResponse, ⟨1, 0⟩)
    | .resp _ tokenBody =>
      match tokenBody with
      | .error _ => (callbackCatchResponse, ⟨1, 0⟩)
      | .ok tokenData =>
        if truthyOpt (tokenData.get "error") then
          (⟨400, .obj [("error", exchangeErrorValue tokenData)]⟩, ⟨1, 0⟩)
        else
          match up.userInfo with
          | .netFail _ => (callbackCatchResponse, ⟨1, 1⟩)
          | .resp _ userBody =>
            match userBody with
            | .error _ => (callbackCatchResponse, ⟨1, 1⟩)
            | .ok userData =>
              (⟨200, mkObjDropUndef [
                  ("access_token", tokenData.get "access_token"),
                  ("token_type", tokenData.get "token_type"),
                  ("scope", tokenData.get "scope"),
                  ("user", some (mkObjDropUndef [
                      ("id", userData.get "id"),
                      ("login", userData.get "login"),
                      ("name", userData.get "name"),
                      ("avatar_url", userData.get "avatar_url")]))]⟩,
               ⟨1, 1⟩)

/-- The guard of `GET /auth/verify` (part_000 line 156):
`!authHeader || !authHeader.startsWith('Bearer ')`. -/
def bearerPresent : Option String → Bool
  | none => false
  | some h => h != "" && h.startsWith "Bearer "

/-- `GET /auth/verify` (part_000 lines 153–187): 401 without a bearer
header; else one upstream call, answering 200 `valid:true` with a filtered
user object on an ok response, 200 `valid:false` on a non-ok status, and
500 from the `catch` when the call or the body parse throws. -/
def verifyHandler (authHeader : Option String) (up : FetchOutcome) :
    HttpResponse × Nat :=
  if !bearerPresent authHeader then
    (⟨401, .obj [("valid", .bool false), ("error", .str "No token provided")]⟩, 0)
  else
    match up with
    | .netFail _ =>
        (⟨500, .obj [("valid", .bool false), ("error", .str "Failed to verify token")]⟩, 1)
    | .resp status body =>
      if respOk status then
        match body with
        | .error _ =>
            (⟨500, .obj [("valid", .bool false), ("error", .str "Failed to verify token")]⟩, 1)
        | .ok user =>
            (⟨200, .obj [
                ("valid", .bool true),
                ("user", mkObjDropUndef [
                    ("id", user.get "id"),
                    ("login", user.get "login"),
                    ("name", user.get "name"),
                    ("avatar_url", user.get "avatar_url")])]⟩, 1)
      else
        (⟨200, .obj [("valid", .bool false), ("error", .str "Token expired or invalid")]⟩, 1)

/-- One request to the auth server, with the data each handler reads from
it. -/
inductive AuthRequest where
  | authGithub (redirectUri : Option String)
  | authCallback (body : Json)
  | authVerify (authHeader : Option String)
deriving Repr

/-- The server's request dispatch: the response and the total number of
upstream calls. A pure function of the environment, the request and the
upstream world — the source registers no other server-side state for a
handler to read or write. -/
def handleRequest (env : Env) (req : AuthRequest) (up : UpstreamWorld) :
    HttpResponse × Nat :=
  match req with
  | .authGithub r => authGithubHandler env r
  | .authCallback b =>
      let (resp, c) := callbackHandler env b up
      (resp, c.tokenCalls + c.userCalls)
  | .authVerify h => verifyHandler h up.userInfo

/-! ## The `useGitHubAuth` hook

The repository holds two versions of the hook
(`src/src/hooks/useGitHubAuth.js` and `src/unnamed/part_001`); their
`initAuth`, `handleCallback` and `logout` are identical, and only `login`
differs (the old version asks the server for the authorize URL, the new
one builds it on the frontend). React state (`user`, `accessToken`,
`isLoading`, `error`) and `localStorage` are modelled as one explicit
record; each operation maps a state to a state, with its `fetch` outcome
(and, at mount, the outcome of `JSON.parse` of the stored user string) as
oracle inputs. -/

/-- The two `localStorage` slots the hook uses (`github_access_token` and
`github_user`); `none` = key absent. -/
structure Storage where
  token : Option String
  userStr : Option String
deriving Repr

/-- The hook's React state plus the browser storage. `accessToken` holds
the JavaScript value last passed to `setAccessToken` (`none` =
null/undefined). -/
structure HookState where
  user : Option Json
  accessToken : Option Json
  isLoading : Bool
  error : Option String
  storage : Storage
deriving Repr

/-- `isAuthenticated: !!accessToken` (both hook versions, return value). -/
def isAuthenticated (s : HookState) : Bool :=
  truthyOpt s.accessToken

/-- The state at the first render: all `useState` initialisers, over
whatever the browser storage holds. -/
def initialHookState (σ : Storage) : HookState :=
  ⟨none, none, true, none, σ⟩

/-- `initAuth`, the mount effect (both versions, lines 42–76): with a
truthy stored token and user string, verify the token upstream; on
`data.valid` set the token and the parsed user (the parse runs after
`setAccessToken`, so a parse failure still leaves the token set); on a
falsy `valid` clear both storage keys; any exception is only logged. -/
def initAuth (s : HookState) (verify : FetchOutcome)
    (parsedUser : Except String Json) : HookState :=
  match s.storage.token, s.storage.userStr with
  | some t, some u =>
    if t != "" && u != "" then
      match verify with
      | .netFail _ => { s with isLoading := false }
      | .resp _ body =>
        match body with
        | .error _ => { s with isLoading := false }
        | .ok data =>
          if truthyOpt (data.get "valid") then
            match parsedUser with
            | .ok uj => { s with accessToken := some (.str t), user := some uj, isLoading := false }
            | .error _ => { s with accessToken := some (.str t), isLoading := false }
          else
            { s with storage := ⟨none, none⟩, isLoading := false }
    else { s with isLoading := false }
  | _, _ => { s with isLoading := false }

/-- `err.message` of `throw new Error(data.error)` (both versions,
line 100): the string coercion of the server's `error` value. -/
def serverErrorMessage : Option Json → String
  | none => ""
  | some j => jsToString j

/-- `handleCallback(code)` (both versions, lines 82–119): clear the error,
POST the code to the server (one `fetch`), and on a parsed body without a
truthy `error` field store and set the token and user and return `true`;
any throw is caught, sets `error` and returns `false`; `finally` clears
`isLoading`. Returns (new state, returned boolean, number of `fetch`
calls made). -/
def handleCallback (s : HookState) (_code : Json) (up : FetchOutcome) :
    HookState × Bool × Nat :=
  let s := { s with error := none, isLoading := true }
  match up with
  | .netFail msg => ({ s with error := some msg, isLoading := false }, false, 1)
  | .resp _ body =>
    match body with
    | .error msg => ({ s with error := some msg, isLoading := false }, false, 1)
    | .ok data =>
      if truthyOpt (data.get "error") then
        ({ s with error := some (serverErrorMessage (data.get "error")), isLoading := false },
         false, 1)
      else
        ({ s with
            storage := ⟨some (jsToStringOpt (data.get "access_token")),
                        some (stringifyForStore (data.get "user"))⟩,
            accessToken := data.get "access_token",
            user := data.get "user",
            isLoading := false }, true, 1)

/-- The frontend-built authorize URL (part_001 lines 164–168). -/
def frontendAuthUrl (clientId : String) (redirectUri : String) : String :=
  "https://github.com/login/oauth/authorize"
    ++ ("?client_id=" ++ clientId)
    ++ ("&redirect_uri=" ++ encodeURIComponent redirectUri)
    ++ "&scope=read:user"

/-- The new `login` (part_001 lines 135–187): set `isLoading`, and with a
truthy client id schedule a redirect to the frontend-built URL (the hook
state keeps `isLoading` true until the page navigates); with a falsy
client id reset `isLoading` and set the error. Makes no `fetch`. Returns
(new state, scheduled redirect target). -/
def loginNew (s : HookState) (clientId : Option String) (origin : String) :
    HookState × Option String :=
  if optStrTruthy clientId then
    ({ s with isLoading := true }, some (frontendAuthUrl (clientId.getD "") origin))
  else
    ({ s with
        isLoading := false,
        error := some "GitHub Client ID not configured. Check your .env file." }, none)

/-- The old `login` (useGitHubAuth.js lines 125–146): one `fetch` of
`GET /auth/github`; redirect to `data.url` when truthy, else throw and set
the error. Returns (new state, redirect target, number of `fetch` calls). -/
def loginOld (s : HookState) (up : FetchOutcome) : HookState × Option Json × Nat :=
  match up with
  | .netFail msg => ({ s with error := some msg }, none, 1)
  | .resp _ body =>
    match body with
    | .error msg => ({ s with error := some msg }, none, 1)
    | .ok data =>
      if truthyOpt (data.get "url") then (s, data.get "url", 1)
      else ({ s with error := some "Failed to get GitHub OAuth URL" }, none, 1)

/-- `logout` (both versions): remove both storage keys and null the token
and user. -/
def logout (s : HookState) : HookState :=
  { s with storage := ⟨none, none⟩, accessToken := none, user := none }

/-- One invocation of a hook operation, with its oracle inputs. -/
inductive HookOp where
  | mount (verify : FetchOutcome) (parsedUser : Except String Json)
  | callbackOp (code : Json) (up : FetchOutcome)
  | loginNewOp (clientId : Option String) (origin : String)
  | loginOldOp (up : FetchOutcome)
  | logoutOp

/-- The state transition of one operation. -/
def hookStep (s : HookState) : HookOp → HookState
  | .mount v p => initAuth s v p
  | .callbackOp c u => (handleCallback s c u).1
  | .loginNewOp cid origin => (loginNew s cid origin).1
  | .loginOldOp u => (loginOld s u).1
  | .logoutOp => logout s

/-- The state after a sequence of operations from the initial state over
storage `σ`. -/
def runHook (σ : Storage) (ops : List HookOp) : HookState :=
  ops.foldl hookStep (initialHookState σ)

/-! ## App.jsx: star counts and the issue search -/

/-- The `repoStars` state object (App.jsx line 134, "Cache for repo star
counts"): an association of repository full names to the value stored for
them (`some .null` = the null marker written after a failed fetch). An
entry whose stored value is `undefined` is indistinguishable from an
absent key under the code's `!== undefined` test, so values are
`Option Json` and `lookupJS` flattens the two. -/
abbrev RepoStars := List (String × Option Json)

/-- `repoStars[repo]` as the code tests it: the stored value, `none` when
the key is absent or holds `undefined`. -/
def lookupJS (m : RepoStars) (k : String) : Option Json :=
  (m.lookup k).bind id

/-- `{...prev, [repo]: v}`: the object with the key set (insertion order
is not tracked; lookups are unaffected). -/
def setKey (m : RepoStars) (k : String) (v : Option Json) : RepoStars :=
  (k, v) :: m.filter fun p => p.1 != k

/-- `fetchRepoStars(repoFullName)` (App.jsx lines 138–157): return at once
when `repoStars[repoFullName] !== undefined` ("Skip if already cached");
otherwise one `fetch`, storing `data.stargazers_count` on an ok response
and the `null` marker on a non-ok response, a parse failure or a network
error. Returns (new map, number of `fetch` calls made). -/
def fetchRepoStars (repoStars : RepoStars) (_accessToken : Option Json)
    (repo : String) (up : FetchOutcome) : RepoStars × Nat :=
  if (lookupJS repoStars repo).isSome then (repoStars, 0)
  else
    match up with
    | .netFail _ => (setKey repoStars repo (some .null), 1)
    | .resp status body =>
      if respOk status then
        match body with
        | .ok data => (setKey repoStars repo (data.get "stargazers_count"), 1)
        | .error _ => (setKey repoStars repo (some .null), 1)
      else
        (setKey repoStars repo (some .null), 1)

/-- The filter state `fetchIssues` reads (App.jsx lines 126–131). -/
structure IssuesFilters where
  searchQuery : String
  language : String
  sortBy : String
  selectedLabels : List String
  selectedCategories : List String
  popularity : String
deriving Repr

/-- The search query `fetchIssues` builds (App.jsx lines 211–237). -/
def buildIssuesQuery (f : IssuesFilters) : String :=
  let q := "is:issue is:open"
  let q := if f.selectedLabels.length > 0 then
      q ++ " (" ++ String.intercalate " "
        (f.selectedLabels.map fun l => "label:\"" ++ l ++ "\"") ++ ")"
    else q
  let q := if f.language != "" then q ++ " language:" ++ f.language else q
  let q := if f.selectedCategories.length > 0 then
      q ++ " (" ++ String.intercalate " OR " f.selectedCategories ++ ")"
    else q
  let q := if f.popularity != "" then q ++ " " ++ f.popularity else q
  if f.searchQuery != "" then q ++ " " ++ f.searchQuery else q

/-- The URL `fetchIssues` requests (App.jsx lines 247–250). -/
def searchIssuesUrl (f : IssuesFilters) : String :=
  "https://api.github.com/search/issues?q=" ++ encodeURIComponent (buildIssuesQuery f)
    ++ "&sort=" ++ f.sortBy ++ "&order=desc&per_page=20"

/-- The issue-list state `fetchIssues` writes (App.jsx lines 122–133).
`issues` and `totalCount` hold the JavaScript values passed to the
setters. -/
structure IssuesState where
  issues : Json
  totalCount : Json
  loading : Bool
  error : Option String
deriving Repr

/-- The message thrown on a non-ok search response (App.jsx
lines 252–257). -/
def issuesFailMessage (status : Nat) : String :=
  if status = 403 then
    "(403) Rate limit exceeded! GitHub allows 10 requests/minute for unauthenticated users. Sign in with GitHub to get 5,000 requests/hour."
  else "Failed to fetch issues. Please try again."

/-- One completed run of `fetchIssues` (App.jsx lines 206–268): set
`loading`, clear `error`, make one `fetch` of the search URL; on an ok
status and parsed body store `data.items || []` and
`data.total_count || 0`; on a non-ok status, a parse failure or a network
error set `error` and empty `issues` (`totalCount` is not reset);
`finally` clears `loading`. Returns (new state, the URL requested). -/
def fetchIssues (prev : IssuesState) (f : IssuesFilters)
    (_accessToken : Option Json) (up : FetchOutcome) : IssuesState × String :=
  let url := searchIssuesUrl f
  match up with
  | .netFail msg =>
      ({ issues := .arr [], totalCount := prev.totalCount,
         loading := false, error := some msg }, url)
  | .resp status body =>
    if respOk status then
      match body with
      | .error msg =>
          ({ issues := .arr [], totalCount := prev.totalCount,
             loading := false, error := some msg }, url)
      | .ok data =>
          ({ issues := jsOr (data.get "items") (.arr []),
             totalCount := jsOr (data.get "total_count") (.num 0),
             loading := false, error := none }, url)
    else
      ({ issues := .arr [], totalCount := prev.totalCount,
         loading := false, error := some (issuesFailMessage status) }, url)

/-! ## The try/catch structure of every `fetch` site

A syntactic summary of each function of the repository that contains an
outbound `fetch`: how many fetches sit outside any `try`, and how many
each of its `try`/`catch` blocks encloses. Read off the staged sources;
the doc comment of each shape cites its lines. -/

/-- The try/catch shape of one function containing `fetch` calls. -/
structure HandlerShape where
  handlerName : String
  fetchesOutsideTry : Nat
  tryBlockFetches : List Nat
deriving Repr, DecidableEq

/-- part_000 lines 80–147: one `try` (96–146) enclosing both the token
exchange (98) and the user-info fetch (121). -/
def serverCallbackShape : HandlerShape :=
  ⟨"server POST /auth/github/callback", 0, [2]⟩

/-- part_000 lines 153–187: one `try` (162–186) enclosing the one fetch
(163). -/
def serverVerifyShape : HandlerShape :=
  ⟨"server GET /auth/verify", 0, [1]⟩

/-- Both hook versions, lines 42–76: one `try` (50–69) enclosing the
verify fetch (51). -/
def clientInitAuthShape : HandlerShape :=
  ⟨"client initAuth", 0, [1]⟩

/-- Both hook versions, lines 82–119: one `try` (87–118) enclosing the
callback fetch (88). -/
def clientHandleCallbackShape : HandlerShape :=
  ⟨"client handleCallback", 0, [1]⟩

/-- useGitHubAuth.js lines 125–146: one `try` (126–145) enclosing the
fetch (132). -/
def clientLoginOldShape : HandlerShape :=
  ⟨"client login (server-URL version)", 0, [1]⟩

/-- App.jsx lines 138–157: one `try` (142–156) enclosing the fetch
(146). -/
def fetchRepoStarsShape : HandlerShape :=
  ⟨"App fetchRepoStars", 0, [1]⟩

/-- App.jsx lines 206–268: one `try` (210–267) enclosing the fetch
(247). -/
def fetchIssuesShape : HandlerShape :=
  ⟨"App fetchIssues", 0, [1]⟩

/-- App.jsx lines 271–325: one `try` (275–324) enclosing the fetch
(305). -/
def fetchTrendingShape : HandlerShape :=
  ⟨"App fetchTrendingRepos", 0, [1]⟩

/-- Every function of the repository containing an outbound `fetch`. -/
def repoFetchShapes : List HandlerShape :=
  [serverCallbackShape, serverVerifyShape, clientInitAuthShape,
   clientHandleCallbackShape, clientLoginOldShape, fetchRepoStarsShape,
   fetchIssuesShape, fetchTrendingShape]

/-- The claim's granularity: no fetch outside a `try`, and every
`try`/`catch` of the function covers exactly one fetch. -/
def singleTryPerCall (h : HandlerShape) : Bool :=
  h.fetchesOutsideTry == 0 && h.tryBlockFetches.all fun n => n == 1

/-! ## Denotation of an authorize URL as base + query parameters -/

/-- The authorize endpoint both URL builders target. -/
def authorizeBase : String := "https://github.com/login/oauth/authorize"

/-- `k₁=v₁&k₂=v₂&…`. -/
def renderQuery : List (String × String) → String
  | [] => ""
  | [p] => p.1 ++ "=" ++ p.2
  | p :: ps => p.1 ++ "=" ++ p.2 ++ "&" ++ renderQuery ps

/-- `base?k₁=v₁&…`: the URL denoting the request with the given base and
query parameters. -/
def renderUrl (base : String) (ps : List (String × String)) : String :=
  base ++ "?" ++ renderQuery ps

/-- The query parameters of the server-built authorize URL, in the
server's order. -/
def serverAuthParams (cid uri : String) : List (String × String) :=
  [("client_id", cid), ("scope", "read:user"), ("redirect_uri", encodeURIComponent uri)]

/-- The query parameters of the frontend-built authorize URL, in the
frontend's order. -/
def frontendAuthParams (cid uri : String) : List (String × String) :=
  [("client_id", cid), ("redirect_uri", encodeURIComponent uri), ("scope", "read:user")]

/-! ## Concrete inputs used by counterexamples and witnesses -/

/-- A fully configured environment. -/
def cbEnvOk : Env := ⟨some "client-id", some "client-secret"⟩

/-- A callback request body carrying a code. -/
def cbBodyOk : Json := .obj [("code", .str "abc123")]

/-- A successful token-exchange response body from GitHub. -/
def cbTokenJson : Json :=
  .obj [("access_token", .str "gho_token"), ("token_type", .str "bearer"),
        ("scope", .str "read:user")]

/-- A successful user-info response body from GitHub. -/
def cbUserJson : Json :=
  .obj [("id", .num 1), ("login", .str "octocat"), ("name", .null),
        ("avatar_url", .str "https://avatars.example/u/1")]

/-- An upstream world in which both callback calls succeed. -/
def cbUpOk : UpstreamWorld := ⟨.resp 200 (.ok cbTokenJson), .resp 200 (.ok cbUserJson)⟩

/-- Browser storage with neither key set. -/
def emptyStorage : Storage := ⟨none, none⟩

/-- A callback response whose `access_token` is the empty string. -/
def emptyTokenResp : FetchOutcome := .resp 200 (.ok (.obj [("access_token", .str "")]))

/-- A `repoStars` map that already holds a count for a repository. -/
def cachedStars : RepoStars := [("octocat/hello-world", some (.num 42))]

/-- A successful star-count response. -/
def starsResp : FetchOutcome := .resp 200 (.ok (.obj [("stargazers_count", .num 7)]))

/-! ## C1 — one try/catch per HTTP call -/

/-- C1, counterexample: the claim says every outbound fetch has a
try/catch covering that call alone, but the `POST /auth/github/callback`
handler's single `try` block encloses both its fetches (the token
exchange and the user-info call), so `singleTryPerCall` fails on its
shape. -/
theorem tryCatch_per_call_cex :
    serverCallbackShape ∈ repoFetchShapes
    ∧ singleTryPerCall serverCallbackShape = false
    ∧ serverCallbackShape.tryBlockFetches = [2] := by decide

/-- C1, amended: every function of the repository that makes an outbound
fetch wraps all its fetches in exactly one `try`/`catch` with no fetch
outside it; in every such function except `POST /auth/github/callback`
that block covers exactly one call, while the callback handler's one
block covers both of its two calls, so their failures share one
handler. -/
theorem tryCatch_granularity_amended :
    (repoFetchShapes.all fun s =>
        s.fetchesOutsideTry == 0 && s.tryBlockFetches.length == 1) = true
    ∧ (repoFetchShapes.all fun s =>
        s.handlerName == "server POST /auth/github/callback"
          || s.tryBlockFetches == [1]) = true
    ∧ serverCallbackShape.tryBlockFetches = [2] := by decide

/-! ## C2 — the number of upstream calls per endpoint -/

/-- C2, counterexample: on a successful exchange the callback handler
makes two upstream calls (token exchange and user info), not exactly
one. -/
theorem callback_single_call_cex :
    (callbackHandler cbEnvOk cbBodyOk cbUpOk).2.tokenCalls
        + (callbackHandler cbEnvOk cbBodyOk cbUpOk).2.userCalls ≠ 1
    ∧ (callbackHandler cbEnvOk cbBodyOk cbUpOk).2 = ⟨1, 1⟩ := by decide

/-- C2, amended: `GET /auth/github` makes no upstream call;
`POST /auth/github/callback` performs the token exchange exactly once
whenever its guards pass, and on its success path (a 200 response) it has
made exactly two upstream calls — the exchange plus the user-info fetch;
`GET /auth/verify` makes exactly one upstream call when a bearer header
is present and none otherwise. -/
theorem oauth_flow_call_counts (env : Env) (body : Json) (up : UpstreamWorld)
    (ru authHeader : Option String) (vUp : FetchOutcome) :
    (authGithubHandler env ru).2 = 0
    ∧ (truthyOpt (body.get "code") = true → optStrTruthy env.clientId = true →
        optStrTruthy env.clientSecret = true →
        (callbackHandler env body up).2.tokenCalls = 1)
    ∧ ((callbackHandler env body up).1.status = 200 →
        (callbackHandler env body up).2 = ⟨1, 1⟩)
    ∧ (verifyHandler authHeader vUp).2 = (if bearerPresent authHeader then 1 else 0) := by
  obtain ⟨tok, usr⟩ := up
  refine ⟨?_, ?_, ?_, ?_⟩
  · obtain ⟨cid, cs⟩ := env
    cases cid with
    | none => rfl
    | some c =>
      simp only [authGithubHandler]
      split <;> rfl
  · intro hc hid hsec
    cases tok with
    | netFail m => simp [callbackHandler, hc, hid, hsec]
    | resp st b =>
      cases b with
      | error m => simp [callbackHandler, hc, hid, hsec]
      | ok d =>
        by_cases he : truthyOpt (d.get "error")
        · simp [callbackHandler, hc, hid, hsec, he]
        · cases usr with
          | netFail m => simp [callbackHandler, hc, hid, hsec, he]
          | resp st2 b2 => cases b2 <;> simp [callbackHandler, hc, hid, hsec, he]
  · by_cases hc : truthyOpt (body.get "code")
    · by_cases hid : optStrTruthy env.clientId
      · by_cases hsec : optStrTruthy env.clientSecret
        · cases tok with
          | netFail m => simp [callbackHandler, hc, hid, hsec, callbackCatchResponse]
          | resp st b =>
            cases b with
            | error m => simp [callbackHandler, hc, hid, hsec, callbackCatchResponse]
            | ok d =>
              by_cases he : truthyOpt (d.get "error")
              · simp [callbackHandler, hc, hid, hsec, he]
              · cases usr with
                | netFail m =>
                    simp [callbackHandler, hc, hid, hsec, he, callbackCatchResponse]
                | resp st2 b2 =>
                    cases b2 <;>
                      simp [callbackHandler, hc, hid, hsec, he, callbackCatchResponse]
        · simp [callbackHandler, hc, hid, hsec]
      · simp [callbackHandler, hc, hid]
    · simp [callbackHandler, hc]
  · by_cases hb : bearerPresent authHeader
    · cases vUp with
      | netFail m => simp [verifyHandler, hb]
      | resp st b =>
        cases b with
        | ok d => by_cases hok : respOk st <;> simp [verifyHandler, hb, hok]
        | error m => by_cases hok : respOk st <;> simp [verifyHandler, hb, hok]
    · simp [verifyHandler, hb]

/-! ## C3 — statelessness: two-run determinism -/

/-- C3: the server's handlers are pure functions of the environment
configuration, the request and the upstream responses — no server-side
state survives a request — so two requests with identical request data,
identical environment and identical upstream responses get identical
responses. -/
theorem server_two_run_determinism (e₁ e₂ : Env) (r₁ r₂ : AuthRequest)
    (u₁ u₂ : UpstreamWorld) (he : e₁ = e₂) (hr : r₁ = r₂) (hu : u₁ = u₂) :
    handleRequest e₁ r₁ u₁ = handleRequest e₂ r₂ u₂ := by
  subst he; subst hr; subst hu; rfl

/-- C3, witness: two identical verify requests at a concrete input. -/
theorem server_two_run_determinism_witness :
    handleRequest cbEnvOk (.authVerify (some "Bearer t"))
        ⟨.netFail "e", .resp 200 (.ok (.obj []))⟩
      = handleRequest cbEnvOk (.authVerify (some "Bearer t"))
        ⟨.netFail "e", .resp 200 (.ok (.obj []))⟩ :=
  server_two_run_determinism _ _ _ _ _ _ rfl rfl rfl

/-! ## C4 — the two-state authentication machine -/

/-- C4, counterexample: a reachable state in which `accessToken` is
non-null but `isAuthenticated` is false. A callback response with no
`error` field and an empty-string `access_token` takes the success path
(`handleCallback` returns `true`), stores the empty string, and
`!!accessToken` is then false because `""` is falsy — so "isAuthenticated
iff accessToken is non-null" fails on this reachable state. -/
theorem auth_nonnull_iff_cex :
    (runHook emptyStorage [.callbackOp (.str "c") emptyTokenResp]).accessToken.isSome = true
    ∧ isAuthenticated (runHook emptyStorage [.callbackOp (.str "c") emptyTokenResp]) = false
    ∧ (handleCallback (initialHookState emptyStorage) (.str "c") emptyTokenResp).2.1 = true := by
  decide

/-- C4, amended: in every state `isAuthenticated` holds iff `accessToken`
is truthy (non-null and non-empty), not merely non-null; a successful
`handleCallback` (a parsed response without a truthy `error` field)
returns `true` and sets `accessToken` and `user` to the response's
`access_token` and `user` values, landing in the has-token state exactly
when that `access_token` is truthy; a failed `handleCallback` leaves
`accessToken` unchanged; and `logout` clears both `accessToken` and
`user`, landing in the no-token state. -/
theorem auth_two_state_amended (s : HookState) (code : Json) (up : FetchOutcome) :
    isAuthenticated s = truthyOpt s.accessToken
    ∧ (∀ st data, up = FetchOutcome.resp st (Except.ok data) →
        truthyOpt (data.get "error") = false →
          (handleCallback s code up).2.1 = true
          ∧ (handleCallback s code up).1.accessToken = data.get "access_token"
          ∧ (handleCallback s code up).1.user = data.get "user"
          ∧ isAuthenticated (handleCallback s code up).1
              = truthyOpt (data.get "access_token"))
    ∧ ((handleCallback s code up).2.1 = false →
        (handleCallback s code up).1.accessToken = s.accessToken)
    ∧ ((logout s).accessToken = none ∧ (logout s).user = none
        ∧ isAuthenticated (logout s) = false) := by
  refine ⟨rfl, ?_, ?_, rfl, rfl, rfl⟩
  · intro st data hup herr
    subst hup
    simp [handleCallback, herr, isAuthenticated]
  · cases up with
    | netFail m => intro _; rfl
    | resp st b =>
      cases b with
      | error m => intro _; rfl
      | ok d =>
        by_cases he : truthyOpt (d.get "error")
        · simp [handleCallback, he]
        · simp [handleCallback, he]

/-! ## C5 — no retry: each endpoint contacted at most once -/

/-- C5: within one invocation of any auth operation each upstream
endpoint is contacted at most once — `GET /auth/github` makes no call,
the callback handler contacts the token endpoint and the user endpoint at
most once each, `GET /auth/verify` and the client's `handleCallback` and
old `login` make at most one call — and when an upstream call fails the
operation returns its error result having issued that one call only. -/
theorem no_retry_single_contact (env : Env) (body : Json) (up : UpstreamWorld)
    (ru authHeader : Option String) (vUp cUp : FetchOutcome)
    (s : HookState) (code : Json) :
    (authGithubHandler env ru).2 = 0
    ∧ (callbackHandler env body up).2.tokenCalls ≤ 1
    ∧ (callbackHandler env body up).2.userCalls ≤ 1
    ∧ (verifyHandler authHeader vUp).2 ≤ 1
    ∧ (handleCallback s code cUp).2.2 ≤ 1
    ∧ (loginOld s cUp).2.2 ≤ 1
    ∧ (∀ m, up.tokenExchange = .netFail m → truthyOpt (body.get "code") = true →
        optStrTruthy env.clientId = true → optStrTruthy env.clientSecret = true →
        callbackHandler env body up = (callbackCatchResponse, ⟨1, 0⟩))
    ∧ (∀ m, vUp = .netFail m → bearerPresent authHeader = true →
        verifyHandler authHeader vUp
          = (⟨500, .obj [("valid", .bool false), ("error", .str "Failed to verify token")]⟩, 1))
    ∧ (∀ m, cUp = .netFail m →
        (handleCallback s code cUp).2 = (false, 1)) := by
  obtain ⟨tok, usr⟩ := up
  refine ⟨?_, ?_, ?_, ?_, ?_, ?_, ?_, ?_, ?_⟩
  · obtain ⟨cid, cs⟩ := env
    cases cid with
    | none => rfl
    | some c =>
      simp only [authGithubHandler]
      split <;> rfl
  · by_cases hc : truthyOpt (body.get "code")
    · by_cases hid : optStrTruthy env.clientId
      · by_cases hsec : optStrTruthy env.clientSecret
        · cases tok with
          | netFail m => simp [callbackHandler, hc, hid, hsec]
          | resp st b =>
            cases b with
            | error m => simp [callbackHandler, hc, hid, hsec]
            | ok d =>
              by_cases he : truthyOpt (d.get "error")
              · simp [callbackHandler, hc, hid, hsec, he]
              · cases usr with
                | netFail m => simp [callbackHandler, hc, hid, hsec, he]
                | resp st2 b2 => cases b2 <;> simp [callbackHandler, hc, hid, hsec, he]
        · simp [callbackHandler, hc, hid, hsec]
      · simp [callbackHandler, hc, hid]
    · simp [callbackHandler, hc]
  · by_cases hc : truthyOpt (body.get "code")
    · by_cases hid : optStrTruthy env.clientId
      · by_cases hsec : optStrTruthy env.clientSecret
        · cases tok with
          | netFail m => simp [callbackHandler, hc, hid, hsec]
          | resp st b =>
            cases b with
            | error m => simp [callbackHandler, hc, hid, hsec]
            | ok d =>
              by_cases he : truthyOpt (d.get "error")
              · simp [callbackHandler, hc, hid, hsec, he]
              · cases usr with
                | netFail m => simp [callbackHandler, hc, hid, hsec, he]
                | resp st2 b2 => cases b2 <;> simp [callbackHandler, hc, hid, hsec, he]
        · simp [callbackHandler, hc, hid, hsec]
      · simp [callbackHandler, hc, hid]
    · simp [callbackHandler, hc]
  · by_cases hb : bearerPresent authHeader
    · cases vUp with
      | netFail m => simp [verifyHandler, hb]
      | resp st b =>
        cases b with
        | ok d => by_cases hok : respOk st <;> simp [verifyHandler, hb, hok]
        | error m => by_cases hok : respOk st <;> simp [verifyHandler, hb, hok]
    · simp [verifyHandler, hb]
  · cases cUp with
    | netFail m => exact Nat.le_refl 1
    | resp st b =>
      cases b with
      | error m => exact Nat.le_refl 1
      | ok d =>
        by_cases he : truthyOpt (d.get "error") <;> simp [handleCallback, he]
  · cases cUp with
    | netFail m => exact Nat.le_refl 1
    | resp st b =>
      cases b with
      | error m => exact Nat.le_refl 1
      | ok d =>
        by_cases hu : truthyOpt (d.get "url") <;> simp [loginOld, hu]
  · intro m htok hc hid hsec
    subst htok
    simp [callbackHandler, hc, hid, hsec]
  · intro m hv hb
    subst hv
    simp [verifyHandler, hb]
  · intro m hv
    subst hv
    rfl

/-! ## C6 — the star-count cache -/

/-- C6, counterexample: with a star count already stored for the
repository, `fetchRepoStars` performs no HTTP request — not one request
per invocation as the claim states. -/
theorem star_fetch_always_requests_cex :
    (fetchRepoStars cachedStars none "octocat/hello-world" starsResp).2 = 0
    ∧ (fetchRepoStars cachedStars none "octocat/hello-world" starsResp).2 ≠ 1 := by
  decide

/-- C6, amended: `fetchRepoStars` consults the `repoStars` map first and
performs its HTTP request exactly when the repository has no stored value
(`repoStars[repo] !== undefined` fails); a cached invocation makes no
request and leaves the map unchanged. -/
theorem star_fetch_cache_amended (m : RepoStars) (tok : Option Json) (repo : String)
    (up : FetchOutcome) :
    (fetchRepoStars m tok repo up).2 = (if (lookupJS m repo).isSome then 0 else 1)
    ∧ ((lookupJS m repo).isSome = true → fetchRepoStars m tok repo up = (m, 0)) := by
  refine ⟨?_, ?_⟩
  · by_cases h : (lookupJS m repo).isSome
    · simp [fetchRepoStars, h]
    · cases up with
      | netFail msg => simp [fetchRepoStars, h]
      | resp st body =>
        cases body with
        | ok d => by_cases hok : respOk st <;> simp [fetchRepoStars, h, hok]
        | error m2 => by_cases hok : respOk st <;> simp [fetchRepoStars, h, hok]
  · intro h
    simp [fetchRepoStars, h]

/-! ## C7 — what the callback returns to the caller -/

/-- C7, counterexample: a successful exchange (status 200) whose response
body is not the JSON GitHub's token endpoint returned — the handler sends
a reassembled object (it carries a `user` key the token response lacks). -/
theorem callback_passthrough_cex :
    (callbackHandler cbEnvOk cbBodyOk cbUpOk).1.status = 200
    ∧ (callbackHandler cbEnvOk cbBodyOk cbUpOk).1.body ≠ cbTokenJson := by
  refine ⟨rfl, fun h => ?_⟩
  have h2 : (((callbackHandler cbEnvOk cbBodyOk cbUpOk).1.body.get "user").isSome
      = (cbTokenJson.get "user").isSome) := by rw [h]
  exact absurd h2 (by decide)

/-- Field access on an object built by `mkObjDropUndef` is `lookupDrop`
on its field list. -/
theorem get_mkObjDropUndef (fs : List (String × Option Json)) (k : String) :
    (mkObjDropUndef fs).get k = lookupDrop fs k := by
  induction fs with
  | nil => rfl
  | cons p rest ih =>
    obtain ⟨s, v⟩ := p
    cases v with
    | none =>
        simpa [mkObjDropUndef, lookupDrop, Json.get] using ih
    | some j =>
        simp only [mkObjDropUndef, Json.get, List.filterMap, Option.map, lookupDrop,
          List.lookup] at ih ⊢
        split <;> rename_i heq
        · simp only [beq_iff_eq] at heq
          simp [heq]
        · simp only [beq_eq_false_iff_ne, ne_eq] at heq
          simp [heq, ih]

/-- C7, amended: on a successful exchange the handler does not forward the
token response verbatim; it answers 200 with a body that agrees with the
token response on `access_token`, `token_type` and `scope` and adds a
`user` object holding the `id`, `login`, `name` and `avatar_url` of the
separate user-info response. -/
theorem callback_body_reassembled (env : Env) (body : Json) (up : UpstreamWorld)
    (tSt uSt : Nat) (tokenData userData : Json)
    (hc : truthyOpt (body.get "code") = true)
    (hid : optStrTruthy env.clientId = true)
    (hsec : optStrTruthy env.clientSecret = true)
    (htok : up.tokenExchange = .resp tSt (.ok tokenData))
    (herr : truthyOpt (tokenData.get "error") = false)
    (husr : up.userInfo = .resp uSt (.ok userData)) :
    (callbackHandler env body up).1.status = 200
    ∧ (callbackHandler env body up).1.body.get "access_token" = tokenData.get "access_token"
    ∧ (callbackHandler env body up).1.body.get "token_type" = tokenData.get "token_type"
    ∧ (callbackHandler env body up).1.body.get "scope" = tokenData.get "scope"
    ∧ (callbackHandler env body up).1.body.get "user"
        = some (mkObjDropUndef [("id", userData.get "id"), ("login", userData.get "login"),
            ("name", userData.get "name"), ("avatar_url", userData.get "avatar_url")]) := by
  obtain ⟨tok, usr⟩ := up
  cases htok
  cases husr
  have hmain : callbackHandler env body ⟨.resp tSt (.ok tokenData), .resp uSt (.ok userData)⟩
      = (⟨200, mkObjDropUndef
          [("access_token", tokenData.get "access_token"),
           ("token_type", tokenData.get "token_type"),
           ("scope", tokenData.get "scope"),
           ("user", some (mkObjDropUndef
              [("id", userData.get "id"), ("login", userData.get "login"),
               ("name", userData.get "name"), ("avatar_url", userData.get "avatar_url")]))]⟩,
        ⟨1, 1⟩) := by
    simp [callbackHandler, hc, hid, hsec, herr]
  rw [hmain]
  refine ⟨rfl, ?_, ?_, ?_, ?_⟩ <;>
    simp only [get_mkObjDropUndef] <;>
    cases tokenData.get "access_token" <;>
    cases tokenData.get "token_type" <;>
    cases tokenData.get "scope" <;>
    simp [lookupDrop]

/-- C7, witness for the amended theorem at the concrete success input. -/
theorem callback_body_reassembled_witness :
    (callbackHandler cbEnvOk cbBodyOk cbUpOk).1.status = 200 :=
  (callback_body_reassembled cbEnvOk cbBodyOk cbUpOk 200 200 cbTokenJson cbUserJson
    (by decide) (by decide) (by decide) rfl (by decide) rfl).1

/-! ## C8 — missing authorization code -/

/-- C8: a callback request whose body holds no truthy `code` value is
answered 400 with the fixed error body, and neither upstream endpoint is
contacted. -/
theorem callback_missing_code_400 (env : Env) (body : Json) (up : UpstreamWorld)
    (h : truthyOpt (body.get "code") = false) :
    callbackHandler env body up
      = (⟨400, .obj [("error", .str "Authorization code is required")]⟩, ⟨0, 0⟩) := by
  simp [callbackHandler, h]

/-- C8, witness: the empty request body. -/
theorem callback_missing_code_400_witness :
    callbackHandler ⟨none, none⟩ (.obj []) ⟨.netFail "x", .netFail "y"⟩
      = (⟨400, .obj [("error", .str "Authorization code is required")]⟩, ⟨0, 0⟩) :=
  callback_missing_code_400 ⟨none, none⟩ (.obj []) ⟨.netFail "x", .netFail "y"⟩ (by decide)

/-! ## C9 — the two authorize-URL constructions agree -/

/-- C9: with the same client id and the same redirect URI, the URL built
by `GET /auth/github` and the URL built by the new frontend `login` both
denote the authorize request on the same base with the same set of query
parameters — each equals the rendering of its parameter list over
`https://github.com/login/oauth/authorize`, and the two lists are
permutations of each other (`client_id`, URI-encoded `redirect_uri`,
`scope=read:user`, differing only in order). -/
theorem authorize_urls_agree (cid uri : String) :
    serverAuthUrl cid uri = renderUrl authorizeBase (serverAuthParams cid uri)
    ∧ frontendAuthUrl cid uri = renderUrl authorizeBase (frontendAuthParams cid uri)
    ∧ (serverAuthParams cid uri).Perm (frontendAuthParams cid uri) := by
  refine ⟨?_, ?_, ?_⟩
  · simp only [serverAuthUrl, baseAuthUrl, renderUrl, renderQuery, authorizeBase,
      serverAuthParams, String.append_assoc]
    rfl
  · simp only [frontendAuthUrl, renderUrl, renderQuery, authorizeBase,
      frontendAuthParams, String.append_assoc]
    rfl
  · exact List.Perm.cons _ (List.Perm.swap _ _ _)

/-! ## C10 — the post-state of `fetchIssues` -/

/-- C10: after every completed run of `fetchIssues`, `loading` is false
and exactly one of two outcomes holds: `error` is null and `issues` and
`totalCount` hold the search response's `data.items || []` and
`data.total_count || 0`, or `error` is non-null and `issues` is empty —
a failed fetch never leaves issues displayed alongside an error. -/
theorem fetchIssues_exclusive_post (prev : IssuesState) (f : IssuesFilters)
    (tok : Option Json) (up : FetchOutcome) :
    (fetchIssues prev f tok up).1.loading = false
    ∧ ((fetchIssues prev f tok up).1.error = none →
        ∃ st data, up = FetchOutcome.resp st (Except.ok data)
          ∧ respOk st = true
          ∧ (fetchIssues prev f tok up).1.issues = jsOr (data.get "items") (Json.arr [])
          ∧ (fetchIssues prev f tok up).1.totalCount
              = jsOr (data.get "total_count") (Json.num 0))
    ∧ ((fetchIssues prev f tok up).1.error ≠ none →
        (fetchIssues prev f tok up).1.issues = Json.arr []) := by
  cases up with
  | netFail msg =>
      refine ⟨rfl, ?_, ?_⟩
      · intro h
        exact absurd h (by simp [fetchIssues])
      · intro _
        rfl
  | resp st body =>
    by_cases hok : respOk st
    · cases body with
      | ok d =>
          refine ⟨by simp [fetchIssues, hok], fun _ => ⟨st, d, rfl, hok, ?_, ?_⟩, fun h => ?_⟩
          · simp [fetchIssues, hok]
          · simp [fetchIssues, hok]
          · exact absurd (by simp [fetchIssues, hok]) h
      | error m =>
          refine ⟨by simp [fetchIssues, hok], fun h => absurd h ?_, fun _ => ?_⟩
          · simp [fetchIssues, hok]
          · simp [fetchIssues, hok]
    · cases body with
      | ok d =>
          refine ⟨by simp [fetchIssues, hok], fun h => absurd h ?_, fun _ => ?_⟩
          · simp [fetchIssues, hok]
          · simp [fetchIssues, hok]
      | error m =>
          refine ⟨by simp [fetchIssues, hok], fun h => absurd h ?_, fun _ => ?_⟩
          · simp [fetchIssues, hok]
          · simp [fetchIssues, hok]

end Psankho
